import Mathlib

/-!
Verification of the gesture-driven visual state engine of the
SingularDuo/HandTracking repository.

The JavaScript sources are shallowly embedded: JS numbers are modelled as
real numbers (`ℝ`) where the code uses `Math.sqrt` / trigonometry, and as
rationals (`ℚ`) for the purely arithmetic layout interpolation of
`main.js`.  Stateful code (the per-hand filter state, the transform state
of a point-cloud object) is modelled by explicit state passing: a JS
function that mutates a state record becomes a Lean function from the old
record to the new one.  Fallible lookups do not occur on the verified
paths (all landmark indices are total accesses in the source), so landmark
frames are modelled as total functions from the landmark index.
-/

/-- A 3D point, as the `{x, y, z}` objects used throughout the sources. -/
structure Vec3 where
  x : ℝ
  y : ℝ
  z : ℝ

namespace HandTracking

/-- `CONFIG.gestures.depthSensitivity` of `handTracking.js`. -/
noncomputable def depthSensitivity : ℝ := 3

/-- `CONFIG.gestures.rotationSensitivity` of `handTracking.js`. -/
noncomputable def rotationSensitivity : ℝ := 2

/-- `CONFIG.smoothing.position` of `handTracking.js`. -/
noncomputable def smoothingPosition : ℝ := 0.3

/-- `CONFIG.smoothing.gesture` of `handTracking.js`. -/
noncomputable def smoothingGesture : ℝ := 0.2

/-- Landmark indices (the `LANDMARKS` table of `handTracking.js`). -/
def WRIST : ℕ := 0

def THUMB_TIP : ℕ := 4

def INDEX_TIP : ℕ := 8

def MIDDLE_TIP : ℕ := 12

def RING_TIP : ℕ := 16

def PINKY_TIP : ℕ := 20

def INDEX_MCP : ℕ := 5

def MIDDLE_MCP : ℕ := 9

def RING_MCP : ℕ := 13

def PINKY_MCP : ℕ := 17

/-- `lerp(a, b, t)` of `handTracking.js`: `a + (b - a) * t`. -/
noncomputable def lerp (a b t : ℝ) : ℝ := a + (b - a) * t

/-- `distance3D(a, b)` of `handTracking.js`. -/
noncomputable def distance3D (a b : Vec3) : ℝ :=
  Real.sqrt ((a.x - b.x) ^ 2 + (a.y - b.y) ^ 2 + (a.z - b.z) ^ 2)

/-- `Math.atan2 y x`, expressed through the principal complex argument
(the same piecewise arctangent with range `(-π, π]`). -/
noncomputable def atan2 (y x : ℝ) : ℝ := Complex.arg ⟨x, y⟩

/-- The per-hand filter state created by `createHandState()` and mutated
by `extractGestureData` in `handTracking.js`. -/
structure HandState where
  detected : Bool
  smoothedPosition : Vec3
  smoothedPinch : ℝ
  smoothedRotationX : ℝ
  smoothedRotationY : ℝ
  baselineZ : Option ℝ

/-- `createHandState()` of `handTracking.js`. -/
noncomputable def createHandState : HandState :=
  { detected := false
    smoothedPosition := ⟨0.5, 0.5, 0.5⟩
    smoothedPinch := 1
    smoothedRotationX := 0
    smoothedRotationY := 0
    baselineZ := none }

/-- The value returned by `extractGestureData` in `handTracking.js`. -/
structure GestureData where
  position : Vec3
  pinch : ℝ
  rotationX : ℝ
  rotationY : ℝ
  zoom : ℝ
  fist : ℝ

/-- The per-finger curl term of `calculateFistAmount` in
`handTracking.js`: `tipDist < mcpDist ? 1 - (tipDist / mcpDist) : 0`. -/
noncomputable def curlOf (tip mcp wrist : Vec3) : ℝ :=
  let tipDist := distance3D tip wrist
  let mcpDist := distance3D mcp wrist
  if tipDist < mcpDist then 1 - tipDist / mcpDist else 0

/-- `calculateFistAmount(landmarks)` of `handTracking.js`: the mean curl
of the four non-thumb fingers, clamped into `[0, 1]`. -/
noncomputable def calculateFistAmount (lm : ℕ → Vec3) : ℝ :=
  let wrist := lm WRIST
  let totalCurl :=
    curlOf (lm INDEX_TIP) (lm INDEX_MCP) wrist +
    curlOf (lm MIDDLE_TIP) (lm MIDDLE_MCP) wrist +
    curlOf (lm RING_TIP) (lm RING_MCP) wrist +
    curlOf (lm PINKY_TIP) (lm PINKY_MCP) wrist
  max 0 (min 1 (totalCurl / 4))

/-- The baseline depth `extractGestureData` works with after its
`if (handState.baselineZ === null) handState.baselineZ = centerZ` step:
the stored baseline when one is set, else the current raw wrist depth. -/
noncomputable def effBaseline (lm : ℕ → Vec3) (hs : HandState) : ℝ :=
  match hs.baselineZ with
  | none => (lm WRIST).z
  | some b => b

/-- `extractGestureData(landmarks, handState)` of `handTracking.js`,
returning the gesture data together with the updated filter state (the JS
function mutates `handState` in place). -/
noncomputable def extractGestureData (lm : ℕ → Vec3) (hs : HandState) :
    GestureData × HandState :=
  let wrist := lm WRIST
  let thumbTip := lm THUMB_TIP
  let indexTip := lm INDEX_TIP
  let middleTip := lm MIDDLE_TIP
  let centerX := wrist.x
  let centerY := wrist.y
  let centerZ := wrist.z
  let baselineZ := effBaseline lm hs
  let sx := lerp hs.smoothedPosition.x centerX smoothingPosition
  let sy := lerp hs.smoothedPosition.y centerY smoothingPosition
  let sz := lerp hs.smoothedPosition.z centerZ smoothingPosition
  let pinchDist := distance3D thumbTip indexTip
  let pinchNormalized := min 1 (pinchDist / 0.2)
  let sPinch := lerp hs.smoothedPinch pinchNormalized smoothingGesture
  let palmX := middleTip.x - wrist.x
  let palmY := middleTip.y - wrist.y
  let palmZ := middleTip.z - wrist.z
  let rotationX := atan2 palmZ palmY * rotationSensitivity
  let rotationY := atan2 palmX palmY * rotationSensitivity
  let sRotX := lerp hs.smoothedRotationX rotationX smoothingGesture
  let sRotY := lerp hs.smoothedRotationY rotationY smoothingGesture
  let zDelta := (baselineZ - sz) * depthSensitivity
  let fistAmount := calculateFistAmount lm
  (⟨⟨sx, sy, sz⟩, sPinch, sRotX, sRotY, zDelta, fistAmount⟩,
   { hs with
      smoothedPosition := ⟨sx, sy, sz⟩
      smoothedPinch := sPinch
      smoothedRotationX := sRotX
      smoothedRotationY := sRotY
      baselineZ := some baselineZ })

/-- The tracker state of `initHandTracking`: one filter state per logical
role plus the `bothDetected` flag. -/
structure TrackerState where
  left : HandState
  right : HandState
  bothDetected : Bool

/-- `resetBaseline()` of the controller returned by `initHandTracking`:
clears both roles' baseline depths. -/
noncomputable def resetBaseline (s : TrackerState) : TrackerState :=
  { s with
      left := { s.left with baselineZ := none }
      right := { s.right with baselineZ := none } }

/-- The detector's raw per-hand label (`multiHandedness[i].label`). -/
inductive HandLabel
  | leftLabel
  | rightLabel
deriving DecidableEq

/-- One entry of the `handsData` array built in `hands.onResults`:
the landmark set, the raw detector label, and `x = landmarks[0].x`. -/
structure RawHand where
  landmarks : ℕ → Vec3
  label : HandLabel
  x : ℝ

/-- The two-hand branch of the spatial sorting logic in `hands.onResults`:
`handsData.sort((a, b) => a.x - b.x)` on the two-element array (swap
exactly when the comparator is positive), then index 0 is processed as the
left role and index 1 as the right role. -/
noncomputable def sortTwoByX (a b : RawHand) : RawHand × RawHand :=
  if a.x > b.x then (b, a) else (a, b)

end HandTracking

namespace Main

/-- The per-object target tuple of `LAYOUT_TARGETS` in `main.js`:
`{ x, opacity, scale, wave }`. -/
structure ObjTarget where
  x : ℚ
  opacity : ℚ
  scale : ℚ
  wave : ℚ

/-- One entry of `LAYOUT_TARGETS` in `main.js`: a target tuple for the
pink (left-hand) object and one for the blue (right-hand) object. -/
structure LayoutTarget where
  pink : ObjTarget
  blue : ObjTarget

/-- The four layout keys of the layout state machine in `main.js`. -/
inductive LayoutKey
  | IDLE
  | LEFT_SOLO
  | RIGHT_SOLO
  | DUAL
deriving DecidableEq

/-- The `LAYOUT_TARGETS` table of `main.js`. -/
def LAYOUT_TARGETS : LayoutKey → LayoutTarget
  | .IDLE => ⟨⟨0, 0, 0.1, 0⟩, ⟨0, 0, 0.1, 0⟩⟩
  | .LEFT_SOLO => ⟨⟨0, 1, 1.0, 0⟩, ⟨4, 0, 0.5, 1⟩⟩
  | .RIGHT_SOLO => ⟨⟨-4, 0, 0.5, 1⟩, ⟨0, 1, 1.0, 0⟩⟩
  | .DUAL => ⟨⟨-2.2, 1, 0.8, 1⟩, ⟨2.2, 1, 0.8, 1⟩⟩

/-- The detection flags of the role-assignment record consumed by
`animate()` in `main.js` (`handData.left.detected`,
`handData.right.detected`, `handData.bothDetected`). -/
structure HandDataFlags where
  leftDetected : Bool
  rightDetected : Bool
  bothDetected : Bool

/-- Step 1 of `animate()` in `main.js`: the cascading conditionals that
pick the target layout key for the current frame. -/
def selectTargetKey (hd : HandDataFlags) : LayoutKey :=
  if hd.bothDetected then .DUAL
  else if hd.leftDetected then .LEFT_SOLO
  else if hd.rightDetected then .RIGHT_SOLO
  else .IDLE

/-- Modelled from the spec: the transition rule of the layout state
machine as stated in the specification (`DUAL` if both roles detected;
else `ROLE_A_SOLO` if only left-role detected; else `ROLE_B_SOLO` if only
right-role detected; else `IDLE`), written as a pure function of the two
detection flags.  Compared against `selectTargetKey`, the code's own
selection. -/
def specLayoutOf (l r : Bool) : LayoutKey :=
  if l && r then .DUAL
  else if l then .LEFT_SOLO
  else if r then .RIGHT_SOLO
  else .IDLE

/-- The per-frame interpolation factor of `animate()` in `main.js`:
`const lerpSpeed = 3.0 * dt`. -/
def lerpSpeed (dt : ℚ) : ℚ := 3 * dt

/-- One per-object entry of the `currentLayout` record in `main.js`. -/
structure ObjState where
  x : ℚ
  opacity : ℚ
  scale : ℚ
  wave : ℚ

/-- `lerpObjectState(current, targetObj)` of `main.js`, with the ambient
`lerpSpeed` made an explicit argument (the JS helper mutates `current` in
place). -/
def lerpObjectState (current : ObjState) (targetObj : ObjTarget) (ls : ℚ) :
    ObjState :=
  { x := current.x + (targetObj.x - current.x) * ls
    opacity := current.opacity + (targetObj.opacity - current.opacity) * ls
    scale := current.scale + (targetObj.scale - current.scale) * ls
    wave := current.wave + (targetObj.wave - current.wave) * ls }

end Main

namespace PointCloud

/-- `CONFIG.sphere.radius` of `pointCloud.js`. -/
noncomputable def sphereRadius : ℝ := 1.5

/-- `CONFIG.sphere.segments` of `pointCloud.js`. -/
def sphereSegments : ℕ := 64

/-- `CONFIG.sphere.rings` of `pointCloud.js`. -/
def sphereRings : ℕ := 40

/-- `const totalPoints = segments * rings` of `createSphereGeometry`. -/
def totalPoints : ℕ := sphereSegments * sphereRings

/-- `CONFIG.animation.waveSpeed` of `pointCloud.js`. -/
noncomputable def waveSpeed : ℝ := 1.5

/-- `CONFIG.animation.waveAmount` of `pointCloud.js`. -/
noncomputable def waveAmountConfig : ℝ := 0.05

/-- The golden ratio `(1 + Math.sqrt(5)) / 2` of `createSphereGeometry`. -/
noncomputable def goldenR : ℝ := (1 + Real.sqrt 5) / 2

/-- `theta = 2 * Math.PI * i / goldenRatio` of `createSphereGeometry`. -/
noncomputable def sphereTheta (i : ℕ) : ℝ := 2 * Real.pi * i / goldenR

/-- `phi = Math.acos(1 - 2 * (i + 0.5) / totalPoints)` of
`createSphereGeometry`. -/
noncomputable def spherePhi (i : ℕ) : ℝ :=
  Real.arccos (1 - 2 * (i + 0.5) / totalPoints)

/-- The rest position of point `i` generated by `createSphereGeometry`. -/
noncomputable def spherePoint (i : ℕ) : Vec3 :=
  ⟨sphereRadius * Real.sin (spherePhi i) * Real.cos (sphereTheta i),
   sphereRadius * Real.sin (spherePhi i) * Real.sin (sphereTheta i),
   sphereRadius * Real.cos (spherePhi i)⟩

/-- The Euclidean magnitude of a generated position. -/
noncomputable def norm3 (v : Vec3) : ℝ :=
  Real.sqrt (v.x ^ 2 + v.y ^ 2 + v.z ^ 2)

/-- The `currentState` record of `createPointCloud` in `pointCloud.js`. -/
structure VisualState where
  hue : ℝ
  waveAmount : ℝ
  radiusScale : ℝ
  spinSpeedMultiplier : ℝ
  opacity : ℝ

/-- The wave-influence blend factor `Math.min(1, state.waveAmount * 2)`
computed in `animateSpherePoints` and `animateRingPoints`. -/
noncomputable def waveInfluence (waveAmount : ℝ) : ℝ := min 1 (waveAmount * 2)

/-- The `transformState` record of `createPointCloud` in `pointCloud.js`. -/
structure TransformState where
  targetScale : ℝ
  currentScale : ℝ
  targetRotationX : ℝ
  targetRotationY : ℝ
  currentRotationX : ℝ
  currentRotationY : ℝ
  targetZoom : ℝ
  currentZoom : ℝ

/-- `setScale(scale)` of `createPointCloud`:
`targetScale = Math.max(0.1, Math.min(3, scale))`. -/
noncomputable def setScale (scale : ℝ) (ts : TransformState) : TransformState :=
  { ts with targetScale := max 0.1 (min 3 scale) }

/-- `setRotation(x, y)` of `createPointCloud`: stores both angles as-is. -/
noncomputable def setRotation (x y : ℝ) (ts : TransformState) : TransformState :=
  { ts with targetRotationX := x, targetRotationY := y }

/-- `setZoom(zoom)` of `createPointCloud`:
`targetZoom = Math.max(-5, Math.min(2, zoom))`. -/
noncomputable def setZoom (zoom : ℝ) (ts : TransformState) : TransformState :=
  { ts with targetZoom := max (-5) (min 2 zoom) }

/-- The sphere geometry as the animation loop sees it: the rest
positions stored once at creation (`originalPositions`) and the per-frame
rendered buffer (`geometry.attributes.position.array`, modelled as the
list of rendered points). -/
structure SphereGeom where
  originalPositions : List Vec3
  positions : List Vec3

/-- The per-point body of the loop in `animateSpherePoints`: blends the
stable breathing field and the dynamic travelling-wave field at one rest
position. -/
noncomputable def spherePointAt (orig : Vec3) (time : ℝ) (state : VisualState) :
    Vec3 :=
  let wi := waveInfluence state.waveAmount
  let breathe := 1 + Real.sin (time * 2) * 0.005 * state.spinSpeedMultiplier
  let wave := Real.sin (orig.y * 4 + time * waveSpeed) * waveAmountConfig
  let wave2 :=
    Real.cos (orig.x * 3 + time * waveSpeed * 0.7) * waveAmountConfig * 0.5
  let dynamicFactor := 1 + wave + wave2
  let startX := orig.x * breathe
  let startY := orig.y * breathe
  let startZ := orig.z * breathe
  let endX := orig.x * dynamicFactor
  let endY := orig.y * dynamicFactor
  let endZ := orig.z * dynamicFactor
  ⟨startX + (endX - startX) * wi,
   startY + (endY - startY) * wi,
   startZ + (endZ - startZ) * wi⟩

/-- `animateSpherePoints(geometry, originalPositions, time, state)` of
`pointCloud.js`: rewrites the rendered buffer from the rest positions;
the rest positions are only read. -/
noncomputable def animateSpherePoints (g : SphereGeom) (time : ℝ)
    (state : VisualState) : SphereGeom :=
  { g with
      positions := g.originalPositions.map fun orig =>
        spherePointAt orig time state }

/-- One entry of a ring's `originalPositions` in `createOrbitalRing`:
the rest coordinates together with the point's fixed angle. -/
structure RingOrig where
  x : ℝ
  y : ℝ
  z : ℝ
  angle : ℝ

/-- A ring as the animation loop sees it: rest positions, rendered
buffer, and the ring radius stored by `createOrbitalRing`. -/
structure RingGeom where
  originalPositions : List RingOrig
  positions : List Vec3
  radius : ℝ

/-- The per-point body of the loop in `animateRingPoints`. -/
noncomputable def ringPointAt (radius : ℝ) (orig : RingOrig) (time : ℝ)
    (index : ℕ) (state : VisualState) : Vec3 :=
  let wi := waveInfluence state.waveAmount
  let stableChaos : ℝ := 0.02
  let dynamicChaos : ℝ := 0.1
  let chaos := stableChaos + (dynamicChaos - stableChaos) * wi
  let yOffset := Real.sin (orig.angle * 3 + time * 2 + index) * chaos
  let radiusOffset := Real.sin (orig.angle * 5 + time * 1.5) * (chaos * 0.5)
  let r := radius + radiusOffset
  ⟨r * Real.cos orig.angle, yOffset, r * Real.sin orig.angle⟩

/-- `animateRingPoints(ring, time, index, state)` of `pointCloud.js`:
rewrites the ring's rendered buffer from its rest positions; the rest
positions are only read. -/
noncomputable def animateRingPoints (ring : RingGeom) (time : ℝ) (index : ℕ)
    (state : VisualState) : RingGeom :=
  { ring with
      positions := ring.originalPositions.map fun orig =>
        ringPointAt ring.radius orig time index state }

end PointCloud

/-!
Theorems settling the claims, in claim order.  Shared helper lemmas come
first.
-/

/-- One interpolation step `a + (t - a) * f` with a factor `f ∈ (0, 1)`
moves the value weakly (and, off target, strictly) closer to the target,
keeps it on the same side of the target, and never lands exactly on the
target. -/
theorem lerpTowards_props (a t f : ℚ) (h0 : 0 < f) (h1 : f < 1) :
    |t - (a + (t - a) * f)| ≤ |t - a| ∧
    (a ≠ t → |t - (a + (t - a) * f)| < |t - a|) ∧
    0 ≤ (t - (a + (t - a) * f)) * (t - a) ∧
    (a ≠ t → a + (t - a) * f ≠ t) := by
  have key : t - (a + (t - a) * f) = (t - a) * (1 - f) := by ring
  have h1f0 : (0 : ℚ) ≤ 1 - f := by linarith
  have h1f1 : 1 - f < 1 := by linarith
  refine ⟨?_, ?_, ?_, ?_⟩
  · rw [key, abs_mul, abs_of_nonneg h1f0]
    exact mul_le_of_le_one_right (abs_nonneg _) (by linarith)
  · intro hne
    have hpos : 0 < |t - a| := abs_pos.2 (sub_ne_zero.2 fun he => hne he.symm)
    rw [key, abs_mul, abs_of_nonneg h1f0]
    exact mul_lt_of_lt_one_right hpos h1f1
  · rw [key]
    have : (t - a) * (1 - f) * (t - a) = (t - a) ^ 2 * (1 - f) := by ring
    rw [this]
    exact mul_nonneg (sq_nonneg _) h1f0
  · intro hne he
    have hz : (t - a) * (1 - f) = 0 := by rw [← key, he, sub_self]
    rcases mul_eq_zero.1 hz with hc | hc
    · exact hne (sub_eq_zero.1 hc).symm
    · linarith

/-- C1: Layout state selection is a pure function of the current frame
detection pattern: on every role-assignment record (whose `bothDetected`
flag is, as the role assigner produces it, the conjunction of the two
per-role detection flags), the cascading conditionals of `animate()` pick
`DUAL` when both roles are detected, else `LEFT_SOLO` when only the left
role is, else `RIGHT_SOLO` when only the right role is, else `IDLE` —
deterministically, with no dependence on history. -/
theorem c1_layout_selection (hd : Main.HandDataFlags)
    (h : hd.bothDetected = (hd.leftDetected && hd.rightDetected)) :
    Main.selectTargetKey hd =
      Main.specLayoutOf hd.leftDetected hd.rightDetected := by
  obtain ⟨l, r, b⟩ := hd
  simp only at h
  subst h
  cases l <;> cases r <;> rfl

/-- Witness for C1 at a concrete record: both roles detected. -/
theorem c1_layout_selection_witness :
    Main.selectTargetKey ⟨true, true, true⟩ = Main.specLayoutOf true true :=
  c1_layout_selection ⟨true, true, true⟩ rfl

/-- C2: With exactly two detected hands, the spatial sorting assigns the
hand with the smaller wrist x to the left role and the larger to the
right role, ignoring the raw detector labels; in particular hands at
x = 0.2 and x = 0.8 always land as left-role ← 0.2 and right-role ← 0.8,
in either input order and for all raw labels. -/
theorem c2_two_hand_roles (a b : HandTracking.RawHand) (lm lm₂ : ℕ → Vec3)
    (l l₂ : HandTracking.HandLabel) :
    (HandTracking.sortTwoByX a b).1.x = min a.x b.x ∧
    (HandTracking.sortTwoByX a b).2.x = max a.x b.x ∧
    HandTracking.sortTwoByX ⟨lm, l, 0.2⟩ ⟨lm₂, l₂, 0.8⟩ =
      (⟨lm, l, 0.2⟩, ⟨lm₂, l₂, 0.8⟩) ∧
    HandTracking.sortTwoByX ⟨lm, l, 0.8⟩ ⟨lm₂, l₂, 0.2⟩ =
      (⟨lm₂, l₂, 0.2⟩, ⟨lm, l, 0.8⟩) := by
  refine ⟨?_, ?_, ?_, ?_⟩
  · unfold HandTracking.sortTwoByX
    split_ifs with h
    · simp [min_eq_right h.le]
    · simp [min_eq_left (le_of_not_lt h)]
  · unfold HandTracking.sortTwoByX
    split_ifs with h
    · simp [max_eq_left h.le]
    · simp [max_eq_right (le_of_not_lt h)]
  · unfold HandTracking.sortTwoByX
    rw [if_neg (by norm_num)]
  · unfold HandTracking.sortTwoByX
    rw [if_pos (by norm_num)]

/-- C3 counterexample: at the concrete frame duration dt = 1 second the
interpolation factor is `3`, not in `[0, 1)`, and a single step from
state 0 toward target 1 lands at 3 — it overshoots the target and ends
farther from it than it started. -/
theorem c3_counterexample :
    0 < (1 : ℚ) ∧
    ¬ Main.lerpSpeed 1 < 1 ∧
    (Main.lerpObjectState ⟨0, 0, 0, 0⟩ ⟨1, 1, 1, 1⟩ (Main.lerpSpeed 1)).x = 3 ∧
    ¬ |(1 : ℚ) -
        (Main.lerpObjectState ⟨0, 0, 0, 0⟩ ⟨1, 1, 1, 1⟩ (Main.lerpSpeed 1)).x| ≤
      |(1 : ℚ) - 0| := by
  refine ⟨by norm_num, ?_, ?_, ?_⟩
  · norm_num [Main.lerpSpeed]
  · norm_num [Main.lerpSpeed, Main.lerpObjectState]
  · norm_num [Main.lerpSpeed, Main.lerpObjectState, abs_le]

/-- C3 (amended): when every frame duration satisfies `0 < dt < 1/3` the
per-frame interpolation factor `3 * dt` lies in `[0, 1)`, and each scalar
component of the interpolated layout state moves weakly (strictly, while
off target) closer to the constant target, never crosses it, and never
reaches it in a single frame. -/
theorem c3_amended_convergence (dt : ℚ) (h0 : 0 < dt) (h1 : dt < 1 / 3)
    (c : Main.ObjState) (t : Main.ObjTarget) :
    (0 ≤ Main.lerpSpeed dt ∧ Main.lerpSpeed dt < 1) ∧
    (|t.x - (Main.lerpObjectState c t (Main.lerpSpeed dt)).x| ≤ |t.x - c.x| ∧
      0 ≤ (t.x - (Main.lerpObjectState c t (Main.lerpSpeed dt)).x) * (t.x - c.x) ∧
      (c.x ≠ t.x →
        |t.x - (Main.lerpObjectState c t (Main.lerpSpeed dt)).x| < |t.x - c.x| ∧
        (Main.lerpObjectState c t (Main.lerpSpeed dt)).x ≠ t.x)) ∧
    (|t.opacity - (Main.lerpObjectState c t (Main.lerpSpeed dt)).opacity| ≤
        |t.opacity - c.opacity| ∧
      0 ≤ (t.opacity - (Main.lerpObjectState c t (Main.lerpSpeed dt)).opacity) *
        (t.opacity - c.opacity) ∧
      (c.opacity ≠ t.opacity →
        |t.opacity - (Main.lerpObjectState c t (Main.lerpSpeed dt)).opacity| <
          |t.opacity - c.opacity| ∧
        (Main.lerpObjectState c t (Main.lerpSpeed dt)).opacity ≠ t.opacity)) ∧
    (|t.scale - (Main.lerpObjectState c t (Main.lerpSpeed dt)).scale| ≤
        |t.scale - c.scale| ∧
      0 ≤ (t.scale - (Main.lerpObjectState c t (Main.lerpSpeed dt)).scale) *
        (t.scale - c.scale) ∧
      (c.scale ≠ t.scale →
        |t.scale - (Main.lerpObjectState c t (Main.lerpSpeed dt)).scale| <
          |t.scale - c.scale| ∧
        (Main.lerpObjectState c t (Main.lerpSpeed dt)).scale ≠ t.scale)) ∧
    (|t.wave - (Main.lerpObjectState c t (Main.lerpSpeed dt)).wave| ≤
        |t.wave - c.wave| ∧
      0 ≤ (t.wave - (Main.lerpObjectState c t (Main.lerpSpeed dt)).wave) *
        (t.wave - c.wave) ∧
      (c.wave ≠ t.wave →
        |t.wave - (Main.lerpObjectState c t (Main.lerpSpeed dt)).wave| <
          |t.wave - c.wave| ∧
        (Main.lerpObjectState c t (Main.lerpSpeed dt)).wave ≠ t.wave)) := by
  have hf0 : 0 < Main.lerpSpeed dt := by unfold Main.lerpSpeed; linarith
  have hf1 : Main.lerpSpeed dt < 1 := by unfold Main.lerpSpeed; linarith
  obtain ⟨x1, x2, x3, x4⟩ := lerpTowards_props c.x t.x _ hf0 hf1
  obtain ⟨o1, o2, o3, o4⟩ := lerpTowards_props c.opacity t.opacity _ hf0 hf1
  obtain ⟨s1, s2, s3, s4⟩ := lerpTowards_props c.scale t.scale _ hf0 hf1
  obtain ⟨w1, w2, w3, w4⟩ := lerpTowards_props c.wave t.wave _ hf0 hf1
  exact ⟨⟨hf0.le, hf1⟩,
    ⟨x1, x3, fun h => ⟨x2 h, x4 h⟩⟩,
    ⟨o1, o3, fun h => ⟨o2 h, o4 h⟩⟩,
    ⟨s1, s3, fun h => ⟨s2 h, s4 h⟩⟩,
    ⟨w1, w3, fun h => ⟨w2 h, w4 h⟩⟩⟩

/-- Witness for the amended C3 at dt = 1/6 s, state 0, target 1. -/
theorem c3_amended_convergence_witness :
    (0 ≤ Main.lerpSpeed (1 / 6) ∧ Main.lerpSpeed (1 / 6) < 1) ∧
    |(1 : ℚ) -
        (Main.lerpObjectState ⟨0, 0, 0, 0⟩ ⟨1, 1, 1, 1⟩
          (Main.lerpSpeed (1 / 6))).x| ≤ |(1 : ℚ) - 0| := by
  have h := c3_amended_convergence (1 / 6) (by norm_num) (by norm_num)
    ⟨0, 0, 0, 0⟩ ⟨1, 1, 1, 1⟩
  exact ⟨h.1, h.2.1.1⟩

/-- C4 counterexample: at the first extraction call (baseline unset) with
smoothed depth 0.5 and a frame whose wrist depth is 0.9, the captured
baseline is the raw wrist depth 0.9 — not the smoothed depth, neither
before the call (0.5) nor after it (0.62); and a state that already holds
a baseline (as retained across a detection gap, which does not clear it)
captures nothing at all. -/
theorem c4_counterexample :
    (HandTracking.extractGestureData (fun _ => ⟨0.5, 0.5, 0.9⟩)
        HandTracking.createHandState).2.baselineZ = some 0.9 ∧
    HandTracking.createHandState.smoothedPosition.z = 0.5 ∧
    (HandTracking.extractGestureData (fun _ => ⟨0.5, 0.5, 0.9⟩)
        HandTracking.createHandState).2.smoothedPosition.z = 0.62 ∧
    (HandTracking.extractGestureData (fun _ => ⟨0.5, 0.5, 0.9⟩)
        HandTracking.createHandState).2.baselineZ ≠
      some HandTracking.createHandState.smoothedPosition.z ∧
    (HandTracking.extractGestureData (fun _ => ⟨0.5, 0.5, 0.9⟩)
        HandTracking.createHandState).2.baselineZ ≠
      some ((HandTracking.extractGestureData (fun _ => ⟨0.5, 0.5, 0.9⟩)
        HandTracking.createHandState).2.smoothedPosition.z) ∧
    (HandTracking.extractGestureData (fun _ => ⟨0.5, 0.5, 0.9⟩)
        { HandTracking.createHandState with baselineZ := some 0.2 }).2.baselineZ =
      some 0.2 := by
  have ebase : (HandTracking.extractGestureData (fun _ => ⟨0.5, 0.5, 0.9⟩)
      HandTracking.createHandState).2.baselineZ = some 0.9 := rfl
  have ez : (HandTracking.extractGestureData (fun _ => ⟨0.5, 0.5, 0.9⟩)
      HandTracking.createHandState).2.smoothedPosition.z =
        HandTracking.lerp 0.5 0.9 HandTracking.smoothingPosition := rfl
  have ez62 : (HandTracking.extractGestureData (fun _ => ⟨0.5, 0.5, 0.9⟩)
      HandTracking.createHandState).2.smoothedPosition.z = 0.62 := by
    rw [ez]
    norm_num [HandTracking.lerp, HandTracking.smoothingPosition]
  refine ⟨ebase, rfl, ez62, ?_, ?_, rfl⟩
  · rw [ebase]
    simp only [ne_eq, Option.some.injEq]
    norm_num [HandTracking.createHandState]
  · rw [ebase, ez62]
    simp only [ne_eq, Option.some.injEq]
    norm_num

/-- C4 (amended): the baseline depth a call works with is the stored one
when set, else the current raw wrist depth, and in the latter case (the
first extraction while the baseline is unset — at startup or after an
explicit `resetBaseline`, which clears both roles) it is captured into
the state; every extraction outputs
zoom = (baseline − smoothed depth) × depth_sensitivity, positive exactly
when the smoothed depth is below the baseline, i.e. when the hand is
closer to the camera than its baseline. -/
theorem c4_amended_baseline_zoom (lm : ℕ → Vec3) (hs : HandTracking.HandState)
    (ts : HandTracking.TrackerState) :
    ((HandTracking.extractGestureData lm hs).1.zoom =
      (HandTracking.effBaseline lm hs -
        (HandTracking.extractGestureData lm hs).2.smoothedPosition.z) *
        HandTracking.depthSensitivity) ∧
    (0 < (HandTracking.extractGestureData lm hs).1.zoom ↔
      (HandTracking.extractGestureData lm hs).2.smoothedPosition.z <
        HandTracking.effBaseline lm hs) ∧
    ((HandTracking.extractGestureData lm hs).2.baselineZ =
      some (HandTracking.effBaseline lm hs)) ∧
    (hs.baselineZ = none →
      HandTracking.effBaseline lm hs = (lm HandTracking.WRIST).z) ∧
    (∀ b : ℝ, hs.baselineZ = some b → HandTracking.effBaseline lm hs = b) ∧
    ((HandTracking.resetBaseline ts).left.baselineZ = none ∧
      (HandTracking.resetBaseline ts).right.baselineZ = none) := by
  refine ⟨rfl, ?_, rfl, ?_, ?_, rfl, rfl⟩
  · have hz : (HandTracking.extractGestureData lm hs).1.zoom =
        (HandTracking.effBaseline lm hs -
          (HandTracking.extractGestureData lm hs).2.smoothedPosition.z) *
          HandTracking.depthSensitivity := rfl
    rw [hz]
    have h3 : (0 : ℝ) < HandTracking.depthSensitivity := by
      norm_num [HandTracking.depthSensitivity]
    constructor
    · intro h
      nlinarith
    · intro h
      nlinarith
  · intro h
    unfold HandTracking.effBaseline
    rw [h]
  · intro b hb
    unfold HandTracking.effBaseline
    rw [hb]

/-- C5: the smoothing filter of `handTracking.js` satisfies
lerp(previous, incoming, factor) = previous + (incoming − previous) × factor,
hence lerp(p, p, f) = p for every factor, and lerp(p, x, 1) = x. -/
theorem c5_lerp_contract (p x f : ℝ) :
    HandTracking.lerp p x f = p + (x - p) * f ∧
    HandTracking.lerp p p f = p ∧
    HandTracking.lerp p x 1 = x := by
  refine ⟨rfl, ?_, ?_⟩ <;> simp [HandTracking.lerp]

/-- C6 counterexample: the wave-influence factor is only upper-clamped —
`Math.min(1, waveAmount * 2)` has no lower clamp — and negative wave
amounts are reachable: one layout tick of duration 0.5 s (factor
`3.0 * dt = 1.5`) from a wave component of 0.9 toward the IDLE target
(wave 0) lands at −0.45, and the wave-influence at wave amount −0.45 is
−0.9, not in `[0, 1]`. -/
theorem c6_wave_counterexample :
    (Main.lerpObjectState ⟨0, 0, 0.1, 0.9⟩
        (Main.LAYOUT_TARGETS Main.LayoutKey.IDLE).pink
        (Main.lerpSpeed 0.5)).wave = -0.45 ∧
    PointCloud.waveInfluence (-0.45) = -0.9 ∧
    ¬ (0 ≤ PointCloud.waveInfluence (-0.45) ∧
        PointCloud.waveInfluence (-0.45) ≤ 1) := by
  have hw : PointCloud.waveInfluence (-0.45) = -0.9 := by
    unfold PointCloud.waveInfluence
    rw [min_eq_right (by norm_num : (-0.45 : ℝ) * 2 ≤ 1)]
    norm_num
  refine ⟨?_, hw, ?_⟩
  · norm_num [Main.lerpObjectState, Main.lerpSpeed, Main.LAYOUT_TARGETS]
  · rw [hw]
    intro hcon
    have := hcon.1
    norm_num at this

/-- C6 (amended): for every landmark frame, the pinch output (given the
smoothed pinch state in `[0, 1]`, its initial value 1 and, as shown, its
range ever after) and the curl output lie in `[0, 1]`; the wave-influence
blend factor is only upper-clamped: it never exceeds 1, lies in `[0, 1]`
when the wave amount is non-negative, and is negative whenever the wave
amount is negative (which the unclamped layout interpolation can
produce). -/
theorem c6_amended_outputs_clamped (lm : ℕ → Vec3) (hs : HandTracking.HandState)
    (hp0 : 0 ≤ hs.smoothedPinch) (hp1 : hs.smoothedPinch ≤ 1) :
    (0 ≤ (HandTracking.extractGestureData lm hs).1.pinch ∧
      (HandTracking.extractGestureData lm hs).1.pinch ≤ 1) ∧
    (0 ≤ (HandTracking.extractGestureData lm hs).1.fist ∧
      (HandTracking.extractGestureData lm hs).1.fist ≤ 1) ∧
    (∀ w : ℝ, PointCloud.waveInfluence w ≤ 1 ∧
      (0 ≤ w → 0 ≤ PointCloud.waveInfluence w) ∧
      (w < 0 → PointCloud.waveInfluence w < 0)) := by
  have hpinch : (HandTracking.extractGestureData lm hs).1.pinch =
      HandTracking.lerp hs.smoothedPinch
        (min 1 (HandTracking.distance3D (lm HandTracking.THUMB_TIP)
          (lm HandTracking.INDEX_TIP) / 0.2)) HandTracking.smoothingGesture := rfl
  have hfist : (HandTracking.extractGestureData lm hs).1.fist =
      HandTracking.calculateFistAmount lm := rfl
  have hd : 0 ≤ HandTracking.distance3D (lm HandTracking.THUMB_TIP)
      (lm HandTracking.INDEX_TIP) := Real.sqrt_nonneg _
  have hb0 : 0 ≤ min 1 (HandTracking.distance3D (lm HandTracking.THUMB_TIP)
      (lm HandTracking.INDEX_TIP) / 0.2) :=
    le_min (by norm_num) (by positivity)
  have hb1 : min 1 (HandTracking.distance3D (lm HandTracking.THUMB_TIP)
      (lm HandTracking.INDEX_TIP) / 0.2) ≤ 1 := min_le_left _ _
  have hg : HandTracking.smoothingGesture = 1 / 5 := by
    norm_num [HandTracking.smoothingGesture]
  refine ⟨⟨?_, ?_⟩, ⟨?_, ?_⟩, ?_⟩
  · rw [hpinch]
    unfold HandTracking.lerp
    rw [hg]
    linarith
  · rw [hpinch]
    unfold HandTracking.lerp
    rw [hg]
    linarith
  · rw [hfist]
    unfold HandTracking.calculateFistAmount
    exact le_max_left _ _
  · rw [hfist]
    unfold HandTracking.calculateFistAmount
    exact max_le (by norm_num) (min_le_left _ _)
  · intro w
    refine ⟨min_le_left _ _, fun hw => le_min (by norm_num) (by linarith), fun hw => ?_⟩
    have hle : PointCloud.waveInfluence w ≤ w * 2 := min_le_right _ _
    linarith

/-- Witness for the amended C6 at a concrete frame (all landmarks at the
origin) and the freshly created filter state. -/
theorem c6_amended_outputs_clamped_witness :
    (0 ≤ (HandTracking.extractGestureData (fun _ => ⟨0, 0, 0⟩)
        HandTracking.createHandState).1.pinch ∧
      (HandTracking.extractGestureData (fun _ => ⟨0, 0, 0⟩)
        HandTracking.createHandState).1.pinch ≤ 1) ∧
    (0 ≤ (HandTracking.extractGestureData (fun _ => ⟨0, 0, 0⟩)
        HandTracking.createHandState).1.fist ∧
      (HandTracking.extractGestureData (fun _ => ⟨0, 0, 0⟩)
        HandTracking.createHandState).1.fist ≤ 1) ∧
    (∀ w : ℝ, PointCloud.waveInfluence w ≤ 1 ∧
      (0 ≤ w → 0 ≤ PointCloud.waveInfluence w) ∧
      (w < 0 → PointCloud.waveInfluence w < 0)) :=
  c6_amended_outputs_clamped (fun _ => ⟨0, 0, 0⟩) HandTracking.createHandState
    (by norm_num [HandTracking.createHandState])
    (by norm_num [HandTracking.createHandState])

/-- C7: every rest position the Fibonacci-sphere mapping of
`createSphereGeometry` generates for the primary cluster has magnitude
exactly the configured radius. -/
theorem c7_sphere_rest_radius (i : ℕ) (h : i < PointCloud.totalPoints) :
    PointCloud.norm3 (PointCloud.spherePoint i) = PointCloud.sphereRadius := by
  have hθ := Real.sin_sq_add_cos_sq (PointCloud.sphereTheta i)
  have hφ := Real.sin_sq_add_cos_sq (PointCloud.spherePhi i)
  have hsum : (PointCloud.sphereRadius * Real.sin (PointCloud.spherePhi i) *
        Real.cos (PointCloud.sphereTheta i)) ^ 2 +
      (PointCloud.sphereRadius * Real.sin (PointCloud.spherePhi i) *
        Real.sin (PointCloud.sphereTheta i)) ^ 2 +
      (PointCloud.sphereRadius * Real.cos (PointCloud.spherePhi i)) ^ 2 =
      PointCloud.sphereRadius ^ 2 := by
    linear_combination
      (PointCloud.sphereRadius ^ 2 * Real.sin (PointCloud.spherePhi i) ^ 2) * hθ +
        PointCloud.sphereRadius ^ 2 * hφ
  show Real.sqrt
      ((PointCloud.sphereRadius * Real.sin (PointCloud.spherePhi i) *
        Real.cos (PointCloud.sphereTheta i)) ^ 2 +
      (PointCloud.sphereRadius * Real.sin (PointCloud.spherePhi i) *
        Real.sin (PointCloud.sphereTheta i)) ^ 2 +
      (PointCloud.sphereRadius * Real.cos (PointCloud.spherePhi i)) ^ 2) =
    PointCloud.sphereRadius
  rw [hsum]
  exact Real.sqrt_sq (by norm_num [PointCloud.sphereRadius])

/-- Witness for C7 at the first point index. -/
theorem c7_sphere_rest_radius_witness :
    PointCloud.norm3 (PointCloud.spherePoint 0) = PointCloud.sphereRadius :=
  c7_sphere_rest_radius 0 (by decide)

/-- C8: one tick of the per-frame point animation leaves the stored rest
positions of the sphere and of every ring (and the ring radius) unchanged;
only the derived rendered buffer is replaced. -/
theorem c8_rest_positions_immutable (g : PointCloud.SphereGeom)
    (ring : PointCloud.RingGeom) (time : ℝ) (index : ℕ)
    (state : PointCloud.VisualState) :
    (PointCloud.animateSpherePoints g time state).originalPositions =
      g.originalPositions ∧
    (PointCloud.animateRingPoints ring time index state).originalPositions =
      ring.originalPositions ∧
    (PointCloud.animateRingPoints ring time index state).radius = ring.radius :=
  ⟨rfl, rfl, rfl⟩

/-- C9: the transform setters clamp their stored targets — `setScale`
stores min(3, max(0.1, scale)), so the target scale is always in
`[0.1, 3]`; `setZoom` stores min(2, max(−5, zoom)), so the target zoom is
always in `[−5, 2]`; `setRotation` stores both angles unclamped. -/
theorem c9_setter_clamps (ts : PointCloud.TransformState) (v x y : ℝ) :
    ((PointCloud.setScale v ts).targetScale = min 3 (max 0.1 v) ∧
      0.1 ≤ (PointCloud.setScale v ts).targetScale ∧
      (PointCloud.setScale v ts).targetScale ≤ 3) ∧
    ((PointCloud.setZoom v ts).targetZoom = min 2 (max (-5) v) ∧
      -5 ≤ (PointCloud.setZoom v ts).targetZoom ∧
      (PointCloud.setZoom v ts).targetZoom ≤ 2) ∧
    ((PointCloud.setRotation x y ts).targetRotationX = x ∧
      (PointCloud.setRotation x y ts).targetRotationY = y) := by
  have hs : (PointCloud.setScale v ts).targetScale = max 0.1 (min 3 v) := rfl
  have hz : (PointCloud.setZoom v ts).targetZoom = max (-5) (min 2 v) := rfl
  refine ⟨⟨?_, ?_, ?_⟩, ⟨?_, ?_, ?_⟩, rfl, rfl⟩
  · rw [hs, max_min_distrib_left, max_eq_right (by norm_num : (0.1 : ℝ) ≤ 3)]
  · rw [hs]
    exact le_max_left _ _
  · rw [hs]
    exact max_le (by norm_num) (min_le_left _ _)
  · rw [hz, max_min_distrib_left, max_eq_right (by norm_num : (-5 : ℝ) ≤ 2)]
  · rw [hz]
    exact le_max_left _ _
  · rw [hz]
    exact max_le (by norm_num) (min_le_left _ _)

/-- C10: in the curled branch of the per-finger curl (tip strictly closer
to the wrist than the MCP), the divisor is strictly positive — distances
are square roots, hence non-negative, so the strict inequality forces the
MCP distance above zero — and the per-finger curl is the well-defined
value 1 − tipDist/mcpDist, which lies in `(0, 1]`. -/
theorem c10_curl_division_safe (tip mcp wrist : Vec3)
    (h : HandTracking.distance3D tip wrist < HandTracking.distance3D mcp wrist) :
    0 < HandTracking.distance3D mcp wrist ∧
    HandTracking.curlOf tip mcp wrist =
      1 - HandTracking.distance3D tip wrist / HandTracking.distance3D mcp wrist ∧
    0 < HandTracking.curlOf tip mcp wrist ∧
    HandTracking.curlOf tip mcp wrist ≤ 1 := by
  have htn : 0 ≤ HandTracking.distance3D tip wrist := Real.sqrt_nonneg _
  have hm : 0 < HandTracking.distance3D mcp wrist := lt_of_le_of_lt htn h
  have hcurl : HandTracking.curlOf tip mcp wrist =
      1 - HandTracking.distance3D tip wrist / HandTracking.distance3D mcp wrist := by
    simp only [HandTracking.curlOf]
    rw [if_pos h]
  have hlt : HandTracking.distance3D tip wrist /
      HandTracking.distance3D mcp wrist < 1 := (div_lt_one hm).2 h
  have hge : 0 ≤ HandTracking.distance3D tip wrist /
      HandTracking.distance3D mcp wrist := div_nonneg htn hm.le
  refine ⟨hm, hcurl, ?_, ?_⟩
  · rw [hcurl]
    linarith
  · rw [hcurl]
    linarith

/-- Witness for C10 at concrete landmarks on the x-axis: tip distance 1,
MCP distance 2. -/
theorem c10_curl_division_safe_witness :
    0 < HandTracking.distance3D ⟨2, 0, 0⟩ ⟨0, 0, 0⟩ ∧
    HandTracking.curlOf ⟨1, 0, 0⟩ ⟨2, 0, 0⟩ ⟨0, 0, 0⟩ =
      1 - HandTracking.distance3D ⟨1, 0, 0⟩ ⟨0, 0, 0⟩ /
        HandTracking.distance3D ⟨2, 0, 0⟩ ⟨0, 0, 0⟩ ∧
    0 < HandTracking.curlOf ⟨1, 0, 0⟩ ⟨2, 0, 0⟩ ⟨0, 0, 0⟩ ∧
    HandTracking.curlOf ⟨1, 0, 0⟩ ⟨2, 0, 0⟩ ⟨0, 0, 0⟩ ≤ 1 := by
  apply c10_curl_division_safe
  have h1 : HandTracking.distance3D ⟨1, 0, 0⟩ ⟨0, 0, 0⟩ = 1 := by
    have e : ((⟨1, 0, 0⟩ : Vec3).x - (⟨0, 0, 0⟩ : Vec3).x) ^ 2 +
        ((⟨1, 0, 0⟩ : Vec3).y - (⟨0, 0, 0⟩ : Vec3).y) ^ 2 +
        ((⟨1, 0, 0⟩ : Vec3).z - (⟨0, 0, 0⟩ : Vec3).z) ^ 2 = 1 := by norm_num
    unfold HandTracking.distance3D
    rw [e, Real.sqrt_one]
  have h2 : HandTracking.distance3D ⟨2, 0, 0⟩ ⟨0, 0, 0⟩ = 2 := by
    have e : ((⟨2, 0, 0⟩ : Vec3).x - (⟨0, 0, 0⟩ : Vec3).x) ^ 2 +
        ((⟨2, 0, 0⟩ : Vec3).y - (⟨0, 0, 0⟩ : Vec3).y) ^ 2 +
        ((⟨2, 0, 0⟩ : Vec3).z - (⟨0, 0, 0⟩ : Vec3).z) ^ 2 = 2 ^ 2 := by norm_num
    unfold HandTracking.distance3D
    rw [e, Real.sqrt_sq (by norm_num : (0 : ℝ) ≤ 2)]
  rw [h1, h2]
  norm_num
